import Mathlib

/-!
Shallow embedding of the note-sequence-to-sound pipeline of the
`ai-piano-player` repository, together with theorems settling the frozen
claims about its natural-language specification.

Sources embedded:
- `src/lib/musicUtils.ts` : pitch validation and frequency computation;
- `src/services/openai.ts` : the MIDI container builder
  (`downloadMidiFromNoteSequence`) and its note-name-to-MIDI mapping;
- `src/services/midiPlayer.ts` : the playback engine module state and its
  `loadNoteSequence` / `stopMidi` / end-of-file / `cleanupMidiPlayer`
  operations;
- `src/services/audioExport.ts` : the recording/export operation
  (`downloadMp3FromNoteSequence`), with external failures made explicit.

JavaScript numbers on the paths modelled here hold either small integers
(MIDI numbers, chromatic indices, octaves) or small dyadic rationals
(times, durations, velocities), so they are embedded as `Int`/`Rat`; the
one floating-point value, the frequency `440 * 2^(k/12)`, is kept in the
symbolic form `FreqResult` and interpreted with `Real.rpow` only inside
theorem statements.
-/

namespace AiPiano

/-! ## Pitch codec (`src/lib/musicUtils.ts`) -/

/-- The character class `[A-G]` of the pitch regex. -/
def noteLetters : List Char := ['A', 'B', 'C', 'D', 'E', 'F', 'G']

/-- The character class `(#|b)` of the pitch regex. -/
def accidentalChars : List Char := ['#', 'b']

/-- The character class `[0-8]` of the pitch regex. -/
def octaveChars : List Char := ['0', '1', '2', '3', '4', '5', '6', '7', '8']

/-- Function `isValidNote` from `musicUtils.ts`: tests the regex
`^[A-G](#|b)?[0-8]$` against the note string. -/
def isValidNote (s : String) : Bool :=
  match s.data with
  | [l, o] => noteLetters.contains l && octaveChars.contains o
  | [l, a, o] =>
      noteLetters.contains l && accidentalChars.contains a &&
        octaveChars.contains o
  | _ => false

/-- Function `validateNotes` from `musicUtils.ts`: keeps exactly the tokens passing
`isValidNote`, in order. -/
def validateNotes (notes : List String) : List String :=
  notes.filter isValidNote

/-- Structured form of the grammar `^[A-G](#|b)?[0-8]$` on a character
list: the letter, the optional accidental and the octave digit of an
accepted string. -/
def grammarParseList : List Char → Option (Char × Option Char × Char)
  | [l, o] =>
      if noteLetters.contains l && octaveChars.contains o then
        some (l, none, o)
      else none
  | [l, a, o] =>
      if noteLetters.contains l && accidentalChars.contains a &&
          octaveChars.contains o then
        some (l, some a, o)
      else none
  | _ => none

/-- Structured form of the grammar `^[A-G](#|b)?[0-8]$` on a string. -/
def grammarParse (s : String) : Option (Char × Option Char × Char) :=
  grammarParseList s.data

/-- JavaScript `String.prototype.replace` with a plain-string pattern
replaces only the first occurrence; this is that operation on character
lists. -/
def replaceFirst (cs pat repl : List Char) : List Char :=
  if pat.isPrefixOf cs then repl ++ cs.drop pat.length
  else
    match cs with
    | [] => []
    | c :: rest => c :: replaceFirst rest pat repl

/-- The 12-entry chromatic table `notes` of `noteToFrequency`. -/
def chromaticScale : List (List Char) :=
  [['C'], ['C', '#'], ['D'], ['D', '#'], ['E'], ['F'], ['F', '#'],
   ['G'], ['G', '#'], ['A'], ['A', '#'], ['B']]

/-- The call `note.replace(/[0-8]$/, "")`: drop a trailing octave digit, if any. -/
def stripTrailingOct (cs : List Char) : List Char :=
  match cs.getLast? with
  | some c => if octaveChars.contains c then cs.dropLast else cs
  | none => cs

/-- The call `parseInt(note.slice(-1))`: the last character as a digit value;
`none` models the `NaN` produced when it is not a digit. -/
def lastCharDigit? (cs : List Char) : Option Int :=
  match cs.getLast? with
  | some c => if c.isDigit then some ((c.toNat : Int) - 48) else none
  | none => none

/-- The chained `.replace("Bb","A#").replace("Db","C#")...` calls of
`noteToFrequency` normalizing flats to enharmonic sharps. -/
def normalizeFlatName (cs : List Char) : List Char :=
  replaceFirst
    (replaceFirst
      (replaceFirst
        (replaceFirst
          (replaceFirst cs ['B', 'b'] ['A', '#'])
          ['D', 'b'] ['C', '#'])
        ['E', 'b'] ['D', '#'])
      ['G', 'b'] ['F', '#'])
    ['A', 'b'] ['G', '#']

/-- Symbolic value of `noteToFrequency`: `invalid` is the explicit
`return 0` taken when the (normalized) note name is not in the chromatic
table; `freq k` stands for the float `440 * 2^(k/12)` with `k` the exact
integer `semitonesFromA4`; `nan` covers the float `NaN` produced when the
name is in the table but the final character is not a digit (unreachable
for grammar-valid strings). -/
inductive FreqResult
  | invalid
  | nan
  | freq (semitonesFromA4 : Int)
deriving DecidableEq, Repr

/-- Function `noteToFrequency` from `musicUtils.ts`, with its float result kept
symbolic (see `FreqResult`): the note name is the string minus a trailing
octave digit, flats are rewritten to sharps, the name is looked up in the
chromatic table (`-1` hit returns 0), and otherwise the semitone offset
from A4 is `(octave - 4) * 12 + noteIndex - 9`. -/
def noteToFrequency (s : String) : FreqResult :=
  let cs := s.data
  let noteName := stripTrailingOct cs
  let normalized := normalizeFlatName noteName
  match chromaticScale.findIdx? (fun n => n == normalized) with
  | none => FreqResult.invalid
  | some idx =>
      match lastCharDigit? cs with
      | none => FreqResult.nan
      | some o => FreqResult.freq ((o - 4) * 12 + (idx : Int) - 9)

/-! ## MIDI note-number mapping of the builder (`src/services/openai.ts`)
and of the playback loader (`src/services/midiPlayer.ts`); the two files
contain the same table and the same conversion code. -/

/-- The `noteToMidiBaseC4` record: note names to MIDI numbers in octave 4. -/
def noteToMidiBaseC4 : List (List Char × Int) :=
  [(['C'], 60), (['C', '#'], 61), (['D', 'b'], 61),
   (['D'], 62), (['D', '#'], 63), (['E', 'b'], 63),
   (['E'], 64),
   (['F'], 65), (['F', '#'], 66), (['G', 'b'], 66),
   (['G'], 67), (['G', '#'], 68), (['A', 'b'], 68),
   (['A'], 69), (['A', '#'], 70), (['B', 'b'], 70),
   (['B'], 71)]

/-- The builder regex `^([A-G][#b]?)(\d+)$`: note name (letter plus
optional accidental) and a nonempty run of decimal digits. -/
def parseNotePattern (cs : List Char) : Option (List Char × List Char) :=
  match cs with
  | [] => none
  | l :: rest =>
      if noteLetters.contains l then
        match rest with
        | [] => none
        | a :: rest₂ =>
            if accidentalChars.contains a then
              if rest₂ ≠ [] && rest₂.all Char.isDigit then
                some ([l, a], rest₂)
              else none
            else
              if rest.all Char.isDigit then some ([l], rest) else none
      else none

/-- The call `parseInt(octaveStr, 10)` on a nonempty digit string. -/
def digitsToNat (cs : List Char) : Nat :=
  cs.foldl (fun acc c => acc * 10 + (c.toNat - 48)) 0

/-- The note-name-to-MIDI conversion shared by `downloadMidiFromNoteSequence`
and `loadNoteSequence`: parse with the builder regex, look the full name up
in `noteToMidiBaseC4`, otherwise start from the bare letter and apply `+1`
for `#` or `-1` for `b`, then add `(octave - 4) * 12`.  `none` models a
regex mismatch (the note is skipped by the callers); the fallback letter
lookup cannot miss for regex-accepted names. -/
def pitchToMidi (s : String) : Option Int :=
  match parseNotePattern s.data with
  | none => none
  | some (name, digits) =>
      let octave : Int := (digitsToNat digits : Int)
      match noteToMidiBaseC4.lookup name with
      | some v => some (v + (octave - 4) * 12)
      | none =>
          match name with
          | [] => none
          | l :: accRest =>
              match noteToMidiBaseC4.lookup [l] with
              | some base =>
                  some (base +
                    (if accRest = ['#'] then 1
                     else if accRest = ['b'] then -1 else 0) +
                    (octave - 4) * 12)
              | none => none

/-! ## MIDI container builder (`downloadMidiFromNoteSequence`) -/

/-- A note event added to the track: `track.addNote({midi, time, duration,
velocity})`. -/
structure MidiEvent where
  midi : Int
  time : Rat
  duration : Rat
  velocity : Rat
deriving DecidableEq, Repr

/-- An element of `noteSequence.notes`: a bare pitch string or a structured
object; `duration`/`velocity` are `none` when the field is absent or not a
number (`typeof note.duration === 'number'` fails). -/
inductive NoteInput
  | str (s : String)
  | obj (pitch : String) (duration : Option Rat) (velocity : Option Rat)
deriving DecidableEq, Repr

/-- Whether a note input is a bare string (`typeof note === 'string'`). -/
def noteIsStr : NoteInput → Bool
  | NoteInput.str _ => true
  | NoteInput.obj _ _ _ => false

/-- Whether a note input is a structured object. -/
def noteIsObj : NoteInput → Bool
  | NoteInput.str _ => false
  | NoteInput.obj _ _ _ => true

/-- The clamp `Math.max(0, Math.min(1, velocity))`. -/
def clamp01 (x : Rat) : Rat := max 0 (min 1 x)

/-- String-path per-note data `(duration, velocity, midi)`: a bare pitch
string gets the fixed duration `0.5` and velocity `0.8`; a structured
object on this path raises a `TypeError` on `.match` that the per-note
`try/catch` swallows, so it yields nothing. -/
def stringNoteData : NoteInput → Option (Rat × Rat × Int)
  | NoteInput.str s => (pitchToMidi s).map fun m => (1/2, 4/5, m)
  | NoteInput.obj _ _ _ => none

/-- Object-path per-note data `(duration, velocity, midi)`: a structured
note carries its own duration (default `0.5`) and clamped velocity
(default `0.8`); a bare string on this path has `note.pitch === undefined`
and the per-note `try/catch` swallows the `TypeError`. -/
def objNoteData : NoteInput → Option (Rat × Rat × Int)
  | NoteInput.str _ => none
  | NoteInput.obj p d v =>
      (pitchToMidi p).map fun m => (d.getD (1/2), (v.map clamp01).getD (4/5), m)

/-- The emission loop shared by the builder's two branches and by the
loader: walk the notes keeping a running `currentTime`, append an event at
the cursor for every note whose conversion succeeds, and advance the
cursor by that event's duration. -/
def emitNotes (g : NoteInput → Option (Rat × Rat × Int)) :
    List NoteInput → Rat → List MidiEvent
  | [], _ => []
  | n :: ns, t =>
      match g n with
      | some (d, v, m) =>
          { midi := m, time := t, duration := d, velocity := v } ::
            emitNotes g ns (t + d)
      | none => emitNotes g ns t

/-- The note-event construction of `downloadMidiFromNoteSequence` in
`openai.ts`, up to but not including the byte serialization and the DOM
download (out of scope: `@tonejs/midi` and browser APIs).  The branch is
chosen by `typeof` of the first note: an empty list reaches the trailing
`else` with `typeof undefined`; a first string makes every element run the
string path; a first object with a truthy `pitch` makes every element run
the object path, and with a falsy `pitch` the call throws; if the chosen
branch adds zero notes the call throws `"No valid notes were generated"`. -/
def downloadMidiFromNoteSequence (notes : List NoteInput) :
    Except String (List MidiEvent) :=
  match notes with
  | [] => Except.error "Unexpected note format: undefined"
  | NoteInput.str _ :: _ =>
      let evs := emitNotes stringNoteData notes 0
      if evs.length = 0 then Except.error "No valid notes were generated"
      else Except.ok evs
  | NoteInput.obj p _ _ :: _ =>
      if p = "" then Except.error "Notes have an unexpected object format"
      else
        let evs := emitNotes objNoteData notes 0
        if evs.length = 0 then Except.error "No valid notes were generated"
        else Except.ok evs

/-! ## Playback engine module state (`src/services/midiPlayer.ts`) -/

/-- The `midi-player-js` player object as the engine observes it: the
loaded MIDI data (if any), whether it is playing, its playback cursor and
its tempo.  Modelled from the spec for the parts external to the
repository: `stop` "resets playback cursor to time 0". -/
structure PlayerState where
  data : Option (List MidiEvent)
  playing : Bool
  cursor : Rat
  tempo : Rat
deriving DecidableEq, Repr

/-- A player as produced by `new MidiPlayer.Player(...)`: nothing loaded,
not playing, cursor at 0, library default tempo 120. -/
def freshPlayer : PlayerState :=
  { data := none, playing := false, cursor := 0, tempo := 120 }

/-- The module-level mutable state of `midiPlayer.ts`: `midiPlayer`,
`audioContext`, `instrument`, `gainNode` (each `null` or present),
`isInitialized`, `currentTempo`, `globalVolume` and the registered
`noteCallback` (present or `null`). -/
structure EngineState where
  player : Option PlayerState
  audioContext : Bool
  instrument : Bool
  gainNode : Bool
  isInitialized : Bool
  currentTempo : Rat
  globalVolume : Rat
  noteCallbackSet : Bool
deriving DecidableEq, Repr

/-- The initial values of the module-level variables of `midiPlayer.ts`. -/
def initialEngineState : EngineState :=
  { player := none, audioContext := false, instrument := false,
    gainNode := false, isInitialized := false, currentTempo := 120,
    globalVolume := 1, noteCallbackSet := false }

/-- Function `initMidiPlayer` on its success path: create the audio context and
gain node if absent, load the instrument if absent (sample failure falls
back to a synthesized instrument, so the instrument is present either
way), replace the player with a fresh `MidiPlayer.Player` and set
`isInitialized`.  Resource-acquisition failure is external and out of the
claims settled here. -/
def initMidiPlayer (s : EngineState) : EngineState :=
  { s with
    audioContext := true
    gainNode := if s.audioContext then s.gainNode else true
    instrument := true
    player := some freshPlayer
    isInitialized := true }

/-- A note sequence as consumed by the engine: the notes and the tempo. -/
structure NoteSeq where
  notes : List NoteInput
  tempo : Rat
deriving DecidableEq, Repr

/-- Function `loadNoteSequence` from `midiPlayer.ts`: re-initialize the player,
store the sequence tempo in `currentTempo`, convert the notes with the
string-path logic (a structured note raises a `TypeError` on `.match`
that the per-note `try/catch` swallows), and either throw
`"No valid notes could be added to the MIDI"` when zero notes were added
or load the events into the player and set its tempo.  The returned pair
is the module state as left behind and the call's outcome. -/
def loadNoteSequence (s : EngineState) (seq : NoteSeq) :
    EngineState × Except String Unit :=
  let s₁ := initMidiPlayer s
  let s₂ := { s₁ with currentTempo := seq.tempo }
  let evs := emitNotes stringNoteData seq.notes 0
  if evs.length = 0 then
    (s₂, Except.error "No valid notes could be added to the MIDI")
  else
    ({ s₂ with
        player := some { freshPlayer with data := some evs, tempo := seq.tempo } },
      Except.ok ())

/-- Function `stopMidi`: if a player exists, stop it and invoke the note callback
with `null` when one is registered.  The second component is the list of
observer invocations made by the call (`none` is the `null` argument). -/
def stopMidi (s : EngineState) : EngineState × List (Option String) :=
  match s.player with
  | none => (s, [])
  | some p =>
      ({ s with player := some { p with playing := false, cursor := 0 } },
        if s.noteCallbackSet then [none] else [])

/-- The `endOfFile` listener registered by `initMidiPlayer`: invoke the
note callback with `null` (when registered) and then call `stopMidi`. -/
def endOfFileHandler (s : EngineState) : EngineState × List (Option String) :=
  let pre : List (Option String) := if s.noteCallbackSet then [none] else []
  let r := stopMidi s
  (r.1, pre ++ r.2)

/-- Function `cleanupMidiPlayer`: stop and discard the player, close and discard
the audio context, drop the instrument, clear `isInitialized` and the
note callback.  (`gainNode`, `currentTempo` and `globalVolume` are left
untouched by the source.) -/
def cleanupMidiPlayer (s : EngineState) : EngineState :=
  { s with
    player := none
    audioContext := false
    instrument := false
    isInitialized := false
    noteCallbackSet := false }

/-! ## Recording/export (`src/services/audioExport.ts`) -/

/-- Failure injection for the effects of `downloadMp3FromNoteSequence`
that are external calls: each flag makes the corresponding call throw. -/
structure ExportEnv where
  toneStartFails : Bool
  samplerFails : Bool
  synthFails : Bool
  recorderStartFails : Bool
  recorderStopFails : Bool
  downloadFails : Bool
deriving DecidableEq, Repr

/-- Observable outcome of `downloadMp3FromNoteSequence`: the call's
result, which resources were created, which were disposed, and how many
notes were scheduled. -/
structure ExportOutcome where
  result : Except String Unit
  recorderCreated : Bool
  instrumentCreated : Bool
  instrumentDisposed : Bool
  recorderDisposed : Bool
  notesScheduled : Nat
deriving Repr

/-- Function `downloadMp3FromNoteSequence` from `audioExport.ts` with its external
effects made explicit: `Tone.start`, then recorder creation, then the
sampler (falling back to a synth inside its own `try/catch`), then
`recorder.start`, per-note scheduling (each note in its own `try/catch`;
`noteOk` says which `triggerAttackRelease` calls succeed), the real-time
wait, `recorder.stop`, the download DOM operations, and finally
`instrument.dispose()` and `recorder.dispose()`.  The single outer
`try/catch` only logs and rethrows: no dispose runs on a failure path. -/
def downloadMp3FromNoteSequence (env : ExportEnv) (noteOk : List Bool) :
    ExportOutcome :=
  if env.toneStartFails then
    { result := Except.error "Tone.start failed", recorderCreated := false,
      instrumentCreated := false, instrumentDisposed := false,
      recorderDisposed := false, notesScheduled := 0 }
  else if env.samplerFails && env.synthFails then
    { result := Except.error "instrument creation failed",
      recorderCreated := true, instrumentCreated := false,
      instrumentDisposed := false, recorderDisposed := false,
      notesScheduled := 0 }
  else if env.recorderStartFails then
    { result := Except.error "recorder.start failed",
      recorderCreated := true, instrumentCreated := true,
      instrumentDisposed := false, recorderDisposed := false,
      notesScheduled := 0 }
  else if env.recorderStopFails then
    { result := Except.error "recorder.stop failed",
      recorderCreated := true, instrumentCreated := true,
      instrumentDisposed := false, recorderDisposed := false,
      notesScheduled := noteOk.count true }
  else if env.downloadFails then
    { result := Except.error "download failed",
      recorderCreated := true, instrumentCreated := true,
      instrumentDisposed := false, recorderDisposed := false,
      notesScheduled := noteOk.count true }
  else
    { result := Except.ok (), recorderCreated := true,
      instrumentCreated := true, instrumentDisposed := true,
      recorderDisposed := true, notesScheduled := noteOk.count true }

/-- Whether an `Except` outcome is a success. -/
def exceptIsOk : Except String Unit → Bool
  | Except.ok _ => true
  | Except.error _ => false

/-! ## Spec-side definitions used to state the claims -/

/-- The spec's base table for octave 4: C..B mapped to 60..71 (letters
without accidental). -/
def specMidiBase : Char → Int
  | 'C' => 60
  | 'D' => 62
  | 'E' => 64
  | 'F' => 65
  | 'G' => 67
  | 'A' => 69
  | 'B' => 71
  | _ => 0

/-- Modelled from the spec: the claimed MIDI-number formula
`base(letter) + accidentalAdjustment + (octave - 4) * 12` with `+1` for
`#` and `-1` for `b`, stated over a parsed grammar pitch; written from the
spec's words for comparison against `pitchToMidi`, which is translated
from the source. -/
def specMidiFormula (l : Char) (a : Option Char) (o : Char) : Int :=
  specMidiBase l +
    (if a = some '#' then 1 else if a = some 'b' then -1 else 0) +
    (((o.toNat : Int) - 48) - 4) * 12

/-- The start times of a sequential layout: position `i` is the sum of
the first `i` durations (`[0, d₀, d₀+d₁, ...]`). -/
def cumStarts : List Rat → List Rat
  | [] => []
  | d :: ds => 0 :: (cumStarts ds).map (fun x => d + x)

/-- Decidable check used to settle the range claim on one grammar string:
the builder mapping succeeds, matches the spec formula's value, and lies
in `0..127`. -/
def midiCheckStr (s : String) (expected : Int) : Bool :=
  match pitchToMidi s with
  | some m => m == expected && decide (0 ≤ m) && decide (m ≤ 127)
  | none => false

/-- Decidable check used to settle the frequency/MIDI agreement claim on
one grammar string: either `noteToFrequency` took its `return 0` branch,
or both conversions succeed and the semitone offset equals
`midiNumber - 69`. -/
def freqAgreeStr (s : String) : Bool :=
  match noteToFrequency s, pitchToMidi s with
  | FreqResult.invalid, _ => true
  | FreqResult.freq k, some m => k == m - 69
  | _, _ => false

/-- Whether the (flat-normalized) note name of the string is found in the
12-entry chromatic table of `noteToFrequency`. -/
def nameInChromaticTable (s : String) : Bool :=
  match noteToFrequency s with
  | FreqResult.invalid => false
  | _ => true

/-- A concrete engine state with a loaded player and a registered note
callback, used to instantiate the transition claims. -/
def demoEngineState : EngineState :=
  { initialEngineState with
    player := some freshPlayer
    noteCallbackSet := true }

/-! ## Helper lemmas -/

theorem emitNotes_length (g : NoteInput → Option (Rat × Rat × Int)) :
    ∀ (ns : List NoteInput) (t : Rat),
      (emitNotes g ns t).length = ns.countP (fun n => (g n).isSome) := by
  intro ns
  induction ns with
  | nil => intro t; simp [emitNotes]
  | cons n ns ih =>
      intro t
      cases hg : g n with
      | none => simp [emitNotes, hg, List.countP_cons, ih]
      | some dvm =>
          obtain ⟨d, v, m⟩ := dvm
          simp [emitNotes, hg, List.countP_cons, ih]

theorem emitNotes_map_time (g : NoteInput → Option (Rat × Rat × Int)) :
    ∀ (ns : List NoteInput) (t : Rat),
      (emitNotes g ns t).map MidiEvent.time =
        (cumStarts ((emitNotes g ns t).map MidiEvent.duration)).map
          (fun x => t + x) := by
  intro ns
  induction ns with
  | nil => intro t; simp [emitNotes, cumStarts]
  | cons n ns ih =>
      intro t
      cases hg : g n with
      | none => simp only [emitNotes, hg]; exact ih t
      | some dvm =>
          obtain ⟨d, v, m⟩ := dvm
          simp only [emitNotes, hg, List.map_cons, cumStarts, List.map_map]
          rw [ih (t + d)]
          simp [Function.comp, add_assoc]

theorem emitNotes_filter (g : NoteInput → Option (Rat × Rat × Int))
    (p : NoteInput → Bool) (hg : ∀ n, p n = false → g n = none) :
    ∀ (ns : List NoteInput) (t : Rat),
      emitNotes g ns t = emitNotes g (ns.filter p) t := by
  intro ns
  induction ns with
  | nil => intro t; simp
  | cons n ns ih =>
      intro t
      cases hp : p n with
      | false => simp [emitNotes, hg n hp, List.filter_cons, hp, ih]
      | true =>
          cases hg' : g n with
          | none => simp [emitNotes, hg', List.filter_cons, hp, ih]
          | some dvm =>
              obtain ⟨d, v, m⟩ := dvm
              simp [emitNotes, hg', List.filter_cons, hp, ih]

theorem emitNotes_nil_of (g : NoteInput → Option (Rat × Rat × Int)) :
    ∀ (ns : List NoteInput) (t : Rat), (∀ n ∈ ns, g n = none) →
      emitNotes g ns t = [] := by
  intro ns
  induction ns with
  | nil => intro t _; rfl
  | cons n ns ih =>
      intro t hall
      have hn : g n = none := hall n (by simp)
      simp only [emitNotes, hn]
      exact ih t fun x hx => hall x (by simp [hx])

theorem emitNotes_string_dur_vel :
    ∀ (ns : List NoteInput) (t : Rat),
      (emitNotes stringNoteData ns t).map MidiEvent.duration =
        List.replicate (emitNotes stringNoteData ns t).length (1/2) ∧
      (emitNotes stringNoteData ns t).map MidiEvent.velocity =
        List.replicate (emitNotes stringNoteData ns t).length (4/5) := by
  intro ns
  induction ns with
  | nil => intro t; simp [emitNotes]
  | cons n ns ih =>
      intro t
      cases n with
      | obj p d v => simp only [emitNotes, stringNoteData]; exact ih t
      | str s =>
          cases hm : pitchToMidi s with
          | none => simp only [emitNotes, stringNoteData, hm, Option.map_none]; exact ih t
          | some m =>
              simp only [emitNotes, stringNoteData, hm, Option.map_some]
              constructor
              · simp [List.replicate, (ih _).1]
              · simp [List.replicate, (ih _).2]

theorem noteIsStr_false_stringNoteData {n : NoteInput}
    (h : noteIsStr n = false) : stringNoteData n = none := by
  cases n with
  | str s => simp [noteIsStr] at h
  | obj p d v => rfl

theorem noteIsObj_false_objNoteData {n : NoteInput}
    (h : noteIsObj n = false) : objNoteData n = none := by
  cases n with
  | str s => rfl
  | obj p d v => simp [noteIsObj] at h

theorem grammarParse_inv {s : String} {l : Char} {a : Option Char} {o : Char}
    (h : grammarParse s = some (l, a, o)) :
    l ∈ noteLetters ∧ o ∈ octaveChars ∧
      ((a = none ∧ s.data = [l, o]) ∨
        ∃ c, a = some c ∧ c ∈ accidentalChars ∧ s.data = [l, c, o]) := by
  unfold grammarParse at h
  generalize hds : s.data = cs at h ⊢
  rcases cs with _ | ⟨c₁, _ | ⟨c₂, _ | ⟨c₃, _ | ⟨c₄, rest⟩⟩⟩⟩
  · simp [grammarParseList] at h
  · simp [grammarParseList] at h
  · rw [show grammarParseList [c₁, c₂] =
        (if noteLetters.contains c₁ && octaveChars.contains c₂ then
          some (c₁, none, c₂) else none) from rfl] at h
    split at h
    · rename_i hcond
      simp only [Option.some.injEq, Prod.mk.injEq] at h
      obtain ⟨h₁, h₂, h₃⟩ := h
      subst h₁; subst h₃
      simp only [Bool.and_eq_true] at hcond
      exact ⟨by simpa using hcond.1, by simpa using hcond.2,
        Or.inl ⟨h₂.symm, rfl⟩⟩
    · simp at h
  · rw [show grammarParseList [c₁, c₂, c₃] =
        (if noteLetters.contains c₁ && accidentalChars.contains c₂ &&
            octaveChars.contains c₃ then
          some (c₁, some c₂, c₃) else none) from rfl] at h
    split at h
    · rename_i hcond
      simp only [Option.some.injEq, Prod.mk.injEq] at h
      obtain ⟨h₁, h₂, h₃⟩ := h
      subst h₁; subst h₃
      simp only [Bool.and_eq_true] at hcond
      exact ⟨by simpa using hcond.1.1, by simpa using hcond.2,
        Or.inr ⟨c₂, h₂.symm, by simpa using hcond.1.2, rfl⟩⟩
    · simp at h
  · simp [grammarParseList] at h

theorem midi_check_two :
    ∀ l ∈ noteLetters, ∀ o ∈ octaveChars,
      midiCheckStr (String.mk [l, o]) (specMidiFormula l none o) = true := by
  decide

theorem midi_check_three :
    ∀ l ∈ noteLetters, ∀ a ∈ accidentalChars, ∀ o ∈ octaveChars,
      midiCheckStr (String.mk [l, a, o]) (specMidiFormula l (some a) o) = true := by
  decide

theorem freq_agree_two :
    ∀ l ∈ noteLetters, ∀ o ∈ octaveChars,
      freqAgreeStr (String.mk [l, o]) = true := by
  decide

theorem freq_agree_three :
    ∀ l ∈ noteLetters, ∀ a ∈ accidentalChars, ∀ o ∈ octaveChars,
      freqAgreeStr (String.mk [l, a, o]) = true := by
  decide

/-! ## Claim theorems -/

/-- C5: for every pitch string accepted by the grammar
`^[A-G](#|b)?[0-8]$`, the MIDI note number produced by the builder's
mapping equals the spec's composite formula (base table for octave 4,
`+1` for `#`, `-1` for `b`, plus `(octave-4)*12`) and is an integer in
the range `0..127`. -/
theorem claim5_grammar_midi_in_range (s : String) (l : Char)
    (a : Option Char) (o : Char) (h : grammarParse s = some (l, a, o)) :
    pitchToMidi s = some (specMidiFormula l a o) ∧
      0 ≤ specMidiFormula l a o ∧ specMidiFormula l a o ≤ 127 := by
  obtain ⟨hl, ho, hcase⟩ := grammarParse_inv h
  obtain ⟨cs⟩ := s
  rcases hcase with ⟨ha, hdata⟩ | ⟨c, ha, hc, hdata⟩
  · subst ha
    have hd : cs = [l, o] := hdata
    subst hd
    have hchk := midi_check_two l hl o ho
    unfold midiCheckStr at hchk
    rcases hm : pitchToMidi (String.mk [l, o]) with _ | m
    · rw [hm] at hchk
      simp at hchk
    · rw [hm] at hchk
      simp only [Bool.and_eq_true, beq_iff_eq, decide_eq_true_eq] at hchk
      obtain ⟨⟨h₁, h₂⟩, h₃⟩ := hchk
      subst h₁
      exact ⟨rfl, h₂, h₃⟩
  · subst ha
    have hd : cs = [l, c, o] := hdata
    subst hd
    have hchk := midi_check_three l hl c hc o ho
    unfold midiCheckStr at hchk
    rcases hm : pitchToMidi (String.mk [l, c, o]) with _ | m
    · rw [hm] at hchk
      simp at hchk
    · rw [hm] at hchk
      simp only [Bool.and_eq_true, beq_iff_eq, decide_eq_true_eq] at hchk
      obtain ⟨⟨h₁, h₂⟩, h₃⟩ := hchk
      subst h₁
      exact ⟨rfl, h₂, h₃⟩

/-- Witness for C5 at the concrete grammar pitch `"C4"`. -/
theorem claim5_witness :
    pitchToMidi "C4" = some (specMidiFormula 'C' none '4') ∧
      0 ≤ specMidiFormula 'C' none '4' ∧ specMidiFormula 'C' none '4' ≤ 127 :=
  claim5_grammar_midi_in_range "C4" 'C' none '4' (by decide)

/-- C1 (amended): `noteToFrequency` and the builder's MIDI mapping agree
(`frequency = 440 * 2^((midi - 69)/12)`, stated through the symbolic
semitone offset) for every grammar pitch whose flat-normalized note name
is present in the 12-entry chromatic table; the grammar spellings `Cb`,
`Fb`, `E#`, `B#` are missing from that table, where `noteToFrequency`
returns the 0 sentinel while the builder still assigns a MIDI number. -/
theorem claim1_amended_freq_matches_midi (s : String) (l : Char)
    (a : Option Char) (o : Char) (hp : grammarParse s = some (l, a, o))
    (ht : nameInChromaticTable s = true) :
    ∃ k m, noteToFrequency s = FreqResult.freq k ∧ pitchToMidi s = some m ∧
      k = m - 69 ∧
      440 * (2 : ℝ) ^ ((k : ℝ) / 12) =
        440 * (2 : ℝ) ^ (((m : ℝ) - 69) / 12) := by
  obtain ⟨hl, ho, hcase⟩ := grammarParse_inv hp
  obtain ⟨cs⟩ := s
  have key : freqAgreeStr (String.mk cs) = true := by
    rcases hcase with ⟨ha, hdata⟩ | ⟨c, ha, hc, hdata⟩
    · have hd : cs = [l, o] := hdata
      subst hd
      exact freq_agree_two l hl o ho
    · have hd : cs = [l, c, o] := hdata
      subst hd
      exact freq_agree_three l hl c hc o ho
  unfold freqAgreeStr at key
  unfold nameInChromaticTable at ht
  rcases hf : noteToFrequency (String.mk cs) with _ | _ | k
  · rw [hf] at ht
    simp at ht
  · rw [hf] at key
    simp at key
  · rw [hf] at key
    rcases hm : pitchToMidi (String.mk cs) with _ | m
    · rw [hm] at key
      simp at key
    · rw [hm] at key
      simp only [beq_iff_eq] at key
      refine ⟨k, m, rfl, rfl, key, ?_⟩
      have hcast : (k : ℝ) = (m : ℝ) - 69 := by
        rw [key]
        push_cast
        ring
      rw [hcast]

/-- Counterexample for C1 as stated: `"Cb4"` is accepted by the grammar,
the builder maps it to MIDI 59, but `noteToFrequency` misses the
chromatic table (its flat normalization handles only Bb, Db, Eb, Gb, Ab)
and returns the 0 sentinel, while `440 * 2^((59-69)/12)` is positive, so
the claimed equation fails there. -/
theorem claim1_counterexample_Cb4 :
    grammarParse "Cb4" = some ('C', some 'b', '4') ∧
      noteToFrequency "Cb4" = FreqResult.invalid ∧
      pitchToMidi "Cb4" = some 59 ∧
      (0 : ℝ) ≠ 440 * (2 : ℝ) ^ (((59 : ℝ) - 69) / 12) := by
  refine ⟨by decide, by decide, by decide, ?_⟩
  have hpos : (0 : ℝ) < 440 * (2 : ℝ) ^ (((59 : ℝ) - 69) / 12) := by
    positivity
  exact ne_of_lt hpos

/-- Witness for C1 (amended) at the concrete grammar pitch `"C4"`. -/
theorem claim1_witness :
    noteToFrequency "C4" = FreqResult.freq (-9) ∧
      pitchToMidi "C4" = some 60 ∧ (-9 : Int) = 60 - 69 ∧
      440 * (2 : ℝ) ^ ((((-9 : Int)) : ℝ) / 12) =
        440 * (2 : ℝ) ^ ((((60 : Int) : ℝ) - 69) / 12) := by
  obtain ⟨k, m, h₁, h₂, h₃, h₄⟩ :=
    claim1_amended_freq_matches_midi "C4" 'C' none '4' (by decide) (by decide)
  have hk : FreqResult.freq k = FreqResult.freq (-9) :=
    h₁.symm.trans (by decide)
  have hm : some m = some (60 : Int) := h₂.symm.trans (by decide)
  injection hk with hk'
  injection hm with hm'
  subst hk'
  subst hm'
  exact ⟨h₁, h₂, h₃, h₄⟩

/-- C6: `validateNotes` returns exactly the subsequence of its input
consisting of the tokens matching `^[A-G](#|b)?[0-8]$`, preserving order
and dropping all others (it is a sublist, every kept token is valid, and
any valid sublist embeds in it); in particular
`validateNotes ["C4","X9","G#3","H2"] = ["C4","G#3"]`. -/
theorem claim6_validateNotes_filters (ts : List String) :
    (validateNotes ts).Sublist ts ∧
      (∀ x ∈ validateNotes ts, isValidNote x = true) ∧
      (∀ l : List String, l.Sublist ts → (∀ x ∈ l, isValidNote x = true) →
        l.Sublist (validateNotes ts)) ∧
      validateNotes ["C4", "X9", "G#3", "H2"] = ["C4", "G#3"] := by
  refine ⟨List.filter_sublist ts, ?_, ?_, by decide⟩
  · intro x hx
    exact (List.mem_filter.mp hx).2
  · intro l hsub hall
    have hself : l.filter isValidNote = l := List.filter_eq_self.mpr hall
    have h₂ := hsub.filter isValidNote
    rw [hself] at h₂
    exact h₂

/-- Witness for C6: the theorem applied to the singleton list `["C4"]`. -/
theorem claim6_witness : isValidNote "C4" = true :=
  (claim6_validateNotes_filters ["C4"]).2.1 "C4" (by decide)

/-- C9: `cleanupMidiPlayer` is idempotent and total: applying it twice
leaves exactly the module state (player, audio context, instrument,
initialization flag, note callback) produced by applying it once, and as
a total function it raises no error. -/
theorem claim9_cleanup_idempotent (s : EngineState) :
    cleanupMidiPlayer (cleanupMidiPlayer s) = cleanupMidiPlayer s := rfl

/-- C8 (amended): `downloadMp3FromNoteSequence` disposes the instrument
and the recorder exactly on its success path; every failure after those
resources were created propagates out of the single `try/catch` without
disposing either. -/
theorem claim8_amended_dispose_iff_success (env : ExportEnv)
    (noteOk : List Bool) :
    (downloadMp3FromNoteSequence env noteOk).instrumentDisposed =
      exceptIsOk (downloadMp3FromNoteSequence env noteOk).result ∧
    (downloadMp3FromNoteSequence env noteOk).recorderDisposed =
      exceptIsOk (downloadMp3FromNoteSequence env noteOk).result := by
  obtain ⟨t, sa, sy, rs, rp, d⟩ := env
  cases t <;> cases sa <;> cases sy <;> cases rs <;> cases rp <;> cases d <;>
    exact ⟨rfl, rfl⟩

/-- Counterexample for C8 as stated: when `recorder.stop()` throws, both
resources were created, the call fails, and neither `dispose` runs. -/
theorem claim8_counterexample_stop_failure :
    (downloadMp3FromNoteSequence ⟨false, false, false, false, true, false⟩
        [true]).recorderCreated = true ∧
      (downloadMp3FromNoteSequence ⟨false, false, false, false, true, false⟩
        [true]).instrumentCreated = true ∧
      (downloadMp3FromNoteSequence ⟨false, false, false, false, true, false⟩
        [true]).result = Except.error "recorder.stop failed" ∧
      (downloadMp3FromNoteSequence ⟨false, false, false, false, true, false⟩
        [true]).instrumentDisposed = false ∧
      (downloadMp3FromNoteSequence ⟨false, false, false, false, true, false⟩
        [true]).recorderDisposed = false :=
  ⟨rfl, rfl, rfl, rfl, rfl⟩

theorem downloadMidi_ok_inv {notes : List NoteInput} {evs : List MidiEvent}
    (h : downloadMidiFromNoteSequence notes = Except.ok evs) :
    (∃ s rest, notes = NoteInput.str s :: rest ∧
      evs = emitNotes stringNoteData notes 0) ∨
    (∃ p d v rest, notes = NoteInput.obj p d v :: rest ∧
      evs = emitNotes objNoteData notes 0) := by
  cases notes with
  | nil => exact Except.noConfusion h
  | cons n rest =>
      cases n with
      | str s₀ =>
          left
          refine ⟨s₀, rest, rfl, ?_⟩
          simp only [downloadMidiFromNoteSequence] at h
          split at h
          · exact Except.noConfusion h
          · injection h with h'
            exact h'.symm
      | obj p d v =>
          right
          refine ⟨p, d, v, rest, rfl, ?_⟩
          simp only [downloadMidiFromNoteSequence] at h
          split at h
          · exact Except.noConfusion h
          · split at h
            · exact Except.noConfusion h
            · injection h with h'
              exact h'.symm

/-- C4: every note list accepted by the MIDI builder yields events laid
out sequentially, each start time the cumulative sum of the durations of
the prior emitted events (first at 0); bare pitch-string notes all get
duration `0.5` and velocity `0.8`; and
`{notes := ["C4","E4","G4"], tempo := 120}` yields three events starting
at 0, 0.5 and 1.0 seconds. -/
theorem claim4_sequential_layout (notes : List NoteInput)
    (evs : List MidiEvent)
    (h : downloadMidiFromNoteSequence notes = Except.ok evs) :
    evs.map MidiEvent.time = cumStarts (evs.map MidiEvent.duration) ∧
      (∀ (s : String) (rest : List NoteInput),
        notes = NoteInput.str s :: rest →
        evs.map MidiEvent.duration = List.replicate evs.length (1/2) ∧
        evs.map MidiEvent.velocity = List.replicate evs.length (4/5)) ∧
      downloadMidiFromNoteSequence
          [NoteInput.str "C4", NoteInput.str "E4", NoteInput.str "G4"] =
        Except.ok
          [{ midi := 60, time := 0, duration := 1/2, velocity := 4/5 },
           { midi := 64, time := 1/2, duration := 1/2, velocity := 4/5 },
           { midi := 67, time := 1, duration := 1/2, velocity := 4/5 }] := by
  refine ⟨?_, ?_, ?_⟩
  case refine_3 =>
    have h₁ : pitchToMidi "C4" = some 60 := by decide
    have h₂ : pitchToMidi "E4" = some 64 := by decide
    have h₃ : pitchToMidi "G4" = some 67 := by decide
    simp [downloadMidiFromNoteSequence, emitNotes, stringNoteData, h₁, h₂, h₃]
    norm_num
  · rcases downloadMidi_ok_inv h with ⟨s₀, rest, hn, he⟩ | ⟨p, d, v, rest, hn, he⟩ <;>
      subst he <;>
      simpa using emitNotes_map_time _ notes 0
  · intro s₀ rest hn
    subst hn
    rcases downloadMidi_ok_inv h with ⟨s₁, rest₁, _, he⟩ | ⟨p, d, v, rest₁, hn₁, he⟩
    · subst he
      exact emitNotes_string_dur_vel _ 0
    · exact NoteInput.noConfusion (List.head_eq_of_cons_eq hn₁)

/-- Witness for C4: the theorem applied to the concrete sequence
`["C4","E4","G4"]`. -/
theorem claim4_witness :
    ([{ midi := 60, time := 0, duration := 1/2, velocity := 4/5 },
      { midi := 64, time := 1/2, duration := 1/2, velocity := 4/5 },
      { midi := 67, time := 1, duration := 1/2, velocity := 4/5 }] :
        List MidiEvent).map MidiEvent.time =
      cumStarts
        (([{ midi := 60, time := 0, duration := 1/2, velocity := 4/5 },
           { midi := 64, time := 1/2, duration := 1/2, velocity := 4/5 },
           { midi := 67, time := 1, duration := 1/2, velocity := 4/5 }] :
            List MidiEvent).map MidiEvent.duration) ∧
    ([{ midi := 60, time := 0, duration := 1/2, velocity := 4/5 },
      { midi := 64, time := 1/2, duration := 1/2, velocity := 4/5 },
      { midi := 67, time := 1, duration := 1/2, velocity := 4/5 }] :
        List MidiEvent).map MidiEvent.duration = List.replicate 3 (1/2) := by
  have hconc : downloadMidiFromNoteSequence
      [NoteInput.str "C4", NoteInput.str "E4", NoteInput.str "G4"] =
      Except.ok
        [{ midi := 60, time := 0, duration := 1/2, velocity := 4/5 },
         { midi := 64, time := 1/2, duration := 1/2, velocity := 4/5 },
         { midi := 67, time := 1, duration := 1/2, velocity := 4/5 }] := by
    have h₁ : pitchToMidi "C4" = some 60 := by decide
    have h₂ : pitchToMidi "E4" = some 64 := by decide
    have h₃ : pitchToMidi "G4" = some 67 := by decide
    simp [downloadMidiFromNoteSequence, emitNotes, stringNoteData, h₁, h₂, h₃]
    norm_num
  have h := claim4_sequential_layout
    [NoteInput.str "C4", NoteInput.str "E4", NoteInput.str "G4"]
    [{ midi := 60, time := 0, duration := 1/2, velocity := 4/5 },
     { midi := 64, time := 1/2, duration := 1/2, velocity := 4/5 },
     { midi := 67, time := 1, duration := 1/2, velocity := 4/5 }] hconc
  exact ⟨h.1, (h.2.1 "C4" [NoteInput.str "E4", NoteInput.str "G4"] rfl).1⟩

/-- C10: the builder dispatches on the type of the first note only: with
a string head the whole array runs the string path (non-string elements
are skipped, never processed as structured notes, so the result equals
the build of the string subsequence); with a structured head (truthy
pitch) the whole array runs the structured path (string elements are
skipped); and an empty list throws the `"Unexpected note format"` error,
not the empty-composition error. -/
theorem claim10_first_element_dispatch :
    (∀ (s : String) (rest : List NoteInput),
      downloadMidiFromNoteSequence (NoteInput.str s :: rest) =
        downloadMidiFromNoteSequence
          ((NoteInput.str s :: rest).filter noteIsStr)) ∧
    (∀ (p : String) (d v : Option Rat) (rest : List NoteInput), p ≠ "" →
      downloadMidiFromNoteSequence (NoteInput.obj p d v :: rest) =
        downloadMidiFromNoteSequence
          ((NoteInput.obj p d v :: rest).filter noteIsObj)) ∧
    downloadMidiFromNoteSequence [] =
      Except.error "Unexpected note format: undefined" ∧
    downloadMidiFromNoteSequence [] ≠
      Except.error "No valid notes were generated" := by
  refine ⟨?_, ?_, rfl, ?_⟩
  · intro s₀ rest
    have hfil : (NoteInput.str s₀ :: rest).filter noteIsStr =
        NoteInput.str s₀ :: rest.filter noteIsStr := by
      simp [List.filter_cons, noteIsStr]
    have hemit := emitNotes_filter stringNoteData noteIsStr
      (fun n hn => noteIsStr_false_stringNoteData hn)
      (NoteInput.str s₀ :: rest) 0
    rw [hfil] at hemit ⊢
    simp only [downloadMidiFromNoteSequence]
    rw [hemit]
  · intro p d v rest hp
    have hfil : (NoteInput.obj p d v :: rest).filter noteIsObj =
        NoteInput.obj p d v :: rest.filter noteIsObj := by
      simp [List.filter_cons, noteIsObj]
    have hemit := emitNotes_filter objNoteData noteIsObj
      (fun n hn => noteIsObj_false_objNoteData hn)
      (NoteInput.obj p d v :: rest) 0
    rw [hfil] at hemit ⊢
    simp only [downloadMidiFromNoteSequence]
    rw [hemit]
  · intro hcontra
    injection hcontra with h'
    exact absurd h' (by decide)

/-- Witness for C10: dispatch equalities at concrete mixed lists,
discharging the truthy-pitch hypothesis. -/
theorem claim10_witness :
    downloadMidiFromNoteSequence
        [NoteInput.str "C4", NoteInput.obj "B4" none none] =
      downloadMidiFromNoteSequence
        ([NoteInput.str "C4", NoteInput.obj "B4" none none].filter
          noteIsStr) ∧
    downloadMidiFromNoteSequence
        [NoteInput.obj "C4" none none, NoteInput.str "E4"] =
      downloadMidiFromNoteSequence
        ([NoteInput.obj "C4" none none, NoteInput.str "E4"].filter
          noteIsObj) :=
  ⟨claim10_first_element_dispatch.1 "C4" [NoteInput.obj "B4" none none],
   claim10_first_element_dispatch.2.1 "C4" none none [NoteInput.str "E4"]
     (by decide)⟩

/-- C2 (amended): the MIDI builder accepts both note shapes, emitting one
event per valid note; the playback engine's `loadNoteSequence` accepts
only bare pitch-string sequences (one event per valid string), while for
structured-object sequences every note is skipped by its string-only
parsing and the load fails with the empty-composition error. -/
theorem claim2_amended_shapes :
    (∀ (notes : List NoteInput) (tempo : Rat) (s : EngineState),
      (∀ x ∈ notes, noteIsStr x = true) →
      0 < notes.countP (fun n => (stringNoteData n).isSome) →
      downloadMidiFromNoteSequence notes =
        Except.ok (emitNotes stringNoteData notes 0) ∧
      (emitNotes stringNoteData notes 0).length =
        notes.countP (fun n => (stringNoteData n).isSome) ∧
      (loadNoteSequence s ⟨notes, tempo⟩).2 = Except.ok () ∧
      (loadNoteSequence s ⟨notes, tempo⟩).1.player =
        some { data := some (emitNotes stringNoteData notes 0),
               playing := false, cursor := 0, tempo := tempo }) ∧
    (∀ (notes : List NoteInput) (tempo : Rat) (s : EngineState)
        (p : String) (d v : Option Rat) (rest : List NoteInput),
      notes = NoteInput.obj p d v :: rest →
      (∀ x ∈ notes, noteIsObj x = true) → p ≠ "" →
      0 < notes.countP (fun n => (objNoteData n).isSome) →
      downloadMidiFromNoteSequence notes =
        Except.ok (emitNotes objNoteData notes 0) ∧
      (emitNotes objNoteData notes 0).length =
        notes.countP (fun n => (objNoteData n).isSome) ∧
      (loadNoteSequence s ⟨notes, tempo⟩).2 =
        Except.error "No valid notes could be added to the MIDI") := by
  constructor
  · intro notes tempo s hall hcount
    have hlen := emitNotes_length stringNoteData notes 0
    have hpos : ¬((emitNotes stringNoteData notes 0).length = 0) := by
      rw [hlen]
      omega
    cases notes with
    | nil => simp at hcount
    | cons n rest =>
        have hn := hall n (by simp)
        cases n with
        | obj p d v => simp [noteIsStr] at hn
        | str s₀ =>
            refine ⟨?_, hlen, ?_, ?_⟩
            · simp only [downloadMidiFromNoteSequence]
              rw [if_neg hpos]
            · simp only [loadNoteSequence]
              rw [if_neg hpos]
            · simp only [loadNoteSequence]
              rw [if_neg hpos]
              rfl
  · intro notes tempo s p d v rest hn hallobj hp hcount
    subst hn
    have hlen := emitNotes_length objNoteData (NoteInput.obj p d v :: rest) 0
    have hpos :
        ¬((emitNotes objNoteData (NoteInput.obj p d v :: rest) 0).length = 0) := by
      rw [hlen]
      omega
    have hempty :
        emitNotes stringNoteData (NoteInput.obj p d v :: rest) 0 = [] := by
      refine emitNotes_nil_of _ _ 0 fun n hmem => ?_
      have hobj := hallobj n hmem
      cases n with
      | str s₁ => simp [noteIsObj] at hobj
      | obj _ _ _ => rfl
    refine ⟨?_, hlen, ?_⟩
    · simp only [downloadMidiFromNoteSequence]
      rw [if_neg hp, if_neg hpos]
    · simp [loadNoteSequence, hempty]

/-- Counterexample for C2 as stated: the structured sequence
`{notes := [{pitch := "C4", duration := 1, velocity := 0.5}], tempo := 120}`
(duration > 0, velocity in [0,1]) is built fine by the MIDI builder, but
`loadNoteSequence` skips every structured note (its parsing calls
`.match` on the note value, which only works on strings) and fails
instead of building a one-event timeline. -/
theorem claim2_counterexample_structured_load :
    downloadMidiFromNoteSequence [NoteInput.obj "C4" (some 1) (some (1/2))] =
      Except.ok [{ midi := 60, time := 0, duration := 1, velocity := 1/2 }] ∧
    (loadNoteSequence initialEngineState
        ⟨[NoteInput.obj "C4" (some 1) (some (1/2))], 120⟩).2 =
      Except.error "No valid notes could be added to the MIDI" := by
  constructor
  · have h₁ : pitchToMidi "C4" = some 60 := by decide
    simp [downloadMidiFromNoteSequence, emitNotes, objNoteData, h₁, clamp01]
    norm_num
  · rfl

/-- Witness for C2 (amended): a one-string sequence loads and builds; a
one-object sequence builds but fails to load. -/
theorem claim2_witness :
    downloadMidiFromNoteSequence [NoteInput.str "C4"] =
      Except.ok (emitNotes stringNoteData [NoteInput.str "C4"] 0) ∧
    (loadNoteSequence initialEngineState ⟨[NoteInput.str "C4"], 120⟩).2 =
      Except.ok () ∧
    downloadMidiFromNoteSequence [NoteInput.obj "E4" none none] =
      Except.ok (emitNotes objNoteData [NoteInput.obj "E4" none none] 0) ∧
    (loadNoteSequence initialEngineState
        ⟨[NoteInput.obj "E4" none none], 120⟩).2 =
      Except.error "No valid notes could be added to the MIDI" := by
  have h₁ := claim2_amended_shapes.1 [NoteInput.str "C4"] 120
    initialEngineState (by decide) (by decide)
  have h₂ := claim2_amended_shapes.2 [NoteInput.obj "E4" none none] 120
    initialEngineState "E4" none none [] rfl (by decide) (by decide)
    (by decide)
  exact ⟨h₁.1, h₁.2.2.1, h₂.1, h₂.2.2⟩

/-- C3 (amended): when a nonempty note list emits zero events, the
builder and the loader fail with their empty-composition errors
(`"No valid notes were generated"` / `"No valid notes could be added to
the MIDI"`); an empty list instead makes the builder throw
`"Unexpected note format: undefined"`.  A failed load leaves no
partially-built timeline — the player is freshly re-created with no data
loaded — but the engine state is not its pre-load state: the stored tempo
is updated to the new sequence's tempo and the player is replaced. -/
theorem claim3_amended_empty_composition :
    (∀ (s₀ : String) (rest : List NoteInput),
      emitNotes stringNoteData (NoteInput.str s₀ :: rest) 0 = [] →
      downloadMidiFromNoteSequence (NoteInput.str s₀ :: rest) =
        Except.error "No valid notes were generated") ∧
    (∀ (p : String) (d v : Option Rat) (rest : List NoteInput), p ≠ "" →
      emitNotes objNoteData (NoteInput.obj p d v :: rest) 0 = [] →
      downloadMidiFromNoteSequence (NoteInput.obj p d v :: rest) =
        Except.error "No valid notes were generated") ∧
    downloadMidiFromNoteSequence [] =
      Except.error "Unexpected note format: undefined" ∧
    (∀ (s : EngineState) (seq : NoteSeq),
      emitNotes stringNoteData seq.notes 0 = [] →
      loadNoteSequence s seq =
        ({ initMidiPlayer s with currentTempo := seq.tempo },
          Except.error "No valid notes could be added to the MIDI") ∧
      (initMidiPlayer s).player = some freshPlayer ∧
      freshPlayer.data = none) := by
  refine ⟨?_, ?_, rfl, ?_⟩
  · intro s₀ rest he
    simp [downloadMidiFromNoteSequence, he]
  · intro p d v rest hp he
    simp [downloadMidiFromNoteSequence, if_neg hp, he]
  · intro s seq he
    refine ⟨?_, rfl, rfl⟩
    simp [loadNoteSequence, he]

/-- Counterexample for C3 as stated: for the empty note list the builder
throws the format error, not the empty-composition error, and a failed
load does not leave the engine state it had before the load (the stored
tempo changes from 120 to the new sequence's 90). -/
theorem claim3_counterexample_empty_list :
    downloadMidiFromNoteSequence [] =
      Except.error "Unexpected note format: undefined" ∧
    "Unexpected note format: undefined" ≠ "No valid notes were generated" ∧
    initialEngineState.currentTempo = 120 ∧
    (loadNoteSequence initialEngineState ⟨[], 90⟩).1.currentTempo = 90 ∧
    (loadNoteSequence initialEngineState ⟨[], 90⟩).2 =
      Except.error "No valid notes could be added to the MIDI" ∧
    (loadNoteSequence initialEngineState ⟨[], 90⟩).1 ≠ initialEngineState := by
  refine ⟨rfl, by decide, rfl, rfl, rfl, ?_⟩
  intro h
  have h' := congrArg EngineState.currentTempo h
  have h₉₀ : (90 : Rat) = 120 := h'
  norm_num at h₉₀

/-- Witness for C3 (amended): an all-invalid one-token list fails both
operations with the empty-composition errors, and the failed load leaves
the updated tempo with a fresh, empty player. -/
theorem claim3_witness :
    downloadMidiFromNoteSequence [NoteInput.str "X9"] =
      Except.error "No valid notes were generated" ∧
    loadNoteSequence initialEngineState ⟨[NoteInput.str "X9"], 77⟩ =
      ({ initMidiPlayer initialEngineState with currentTempo := 77 },
        Except.error "No valid notes could be added to the MIDI") := by
  have hemit : emitNotes stringNoteData [NoteInput.str "X9"] 0 = [] := rfl
  exact ⟨claim3_amended_empty_composition.1 "X9" [] hemit,
    (claim3_amended_empty_composition.2.2.2 initialEngineState
      ⟨[NoteInput.str "X9"], 77⟩ hemit).1⟩

/-- C7: whenever playback leaves the Playing state other than by pause —
an explicit `stopMidi`, or the `endOfFile` transition — the registered
note-tracking observer is invoked with `null` (every invocation either
path makes is `null`), and the end-of-timeline handler performs exactly
what an explicit stop does: it calls `stopMidi` itself (after one extra
`null` notification) and reaches the identical engine state, with the
player stopped and its cursor reset to 0. -/
theorem claim7_stop_and_eof_clear_note (s : EngineState) (p : PlayerState)
    (hp : s.player = some p) (hcb : s.noteCallbackSet = true) :
    (stopMidi s).2 = [none] ∧
    (endOfFileHandler s).2 = [none, none] ∧
    (endOfFileHandler s).1 = (stopMidi s).1 ∧
    (stopMidi s).1.player = some { p with playing := false, cursor := 0 } := by
  simp [endOfFileHandler, stopMidi, hp, hcb]

/-- Witness for C7 at a concrete engine state with a loaded player and a
registered callback. -/
theorem claim7_witness :
    (stopMidi demoEngineState).2 = [none] ∧
    (endOfFileHandler demoEngineState).2 = [none, none] ∧
    (endOfFileHandler demoEngineState).1 = (stopMidi demoEngineState).1 := by
  have h := claim7_stop_and_eof_clear_note demoEngineState freshPlayer rfl rfl
  exact ⟨h.1, h.2.1, h.2.2.1⟩

end AiPiano
